import Mathlib

/-!
Verification of the local llama-server runtime supervisor
(`src/app/src-tauri/src/runtime.rs` and the archived variant
`src/_archive/app_old/src-tauri/src/runtime.rs`).

Shallow embedding conventions:
* Rust `u16`/`i32` ports/counters become `Nat`/`Int`.
* Rust `f64` option fields (`temperature`, `top_p`) are modelled as `ℚ`;
  the code only compares them (`!= 0.0`, `0.0 <= t <= 2.0`), so rationals
  are a faithful model for every non-NaN input.
* HTTP exchanges are modelled by an oracle value `Transport`: either a
  transport error carrying the error display string, or a response with a
  status code and a body string.
* `serde_json` parsing is modelled by an executable JSON parser
  (`Json.parse`) together with struct-decoding functions that follow the
  derive semantics of the concrete Rust structs (missing `Option` field is
  `none`, `null` is `none`, a type mismatch fails the whole parse).
* Process handles (`std::process::Child`) are modelled as `Option Nat`
  (a pid); killing a child is recorded in an explicit `killed` output list.
-/

/-! ## Generic string-containment helper (for "error message includes X" claims) -/

/-- `leadsWith t s` is true when the char list `t` is an initial segment of `s`. -/
def leadsWith : List Char → List Char → Bool
  | [], _ => true
  | _ :: _, [] => false
  | a :: as, b :: bs => a == b && leadsWith as bs

/-- `hasSub t s` is true when `t` occurs contiguously inside `s`. -/
def hasSub : List Char → List Char → Bool
  | t, [] => leadsWith t []
  | t, c :: s' => leadsWith t (c :: s') || hasSub t s'

/-- `strContains s t` is true when string `t` occurs as a substring of `s`. -/
def strContains (s t : String) : Bool := hasSub t.data s.data

theorem leadsWith_self_append (t b : List Char) : leadsWith t (t ++ b) = true := by
  induction t with
  | nil => rfl
  | cons a as ih => simp [leadsWith, ih]

theorem hasSub_self_append (t b : List Char) : hasSub t (t ++ b) = true := by
  cases t with
  | nil => cases b <;> simp [hasSub, leadsWith]
  | cons a as =>
    simp only [hasSub, List.cons_append, Bool.or_eq_true]
    exact Or.inl (leadsWith_self_append (a :: as) b)

theorem hasSub_append_left (t a rest : List Char) (h : hasSub t rest = true) :
    hasSub t (a ++ rest) = true := by
  induction a with
  | nil => simpa using h
  | cons c cs ih =>
    cases t with
    | nil => simp [hasSub, leadsWith]
    | cons x xs => simp [hasSub]; right; simpa [hasSub] using ih

theorem data_append (a b : String) : (a ++ b).data = a.data ++ b.data := rfl

/-- A string built as `pre ++ mid ++ post` contains `mid`. -/
theorem strContains_of_append (pre mid post : String) :
    strContains (pre ++ mid ++ post) mid = true := by
  unfold strContains
  rw [data_append, data_append, List.append_assoc]
  exact hasSub_append_left _ _ _ (hasSub_self_append _ _)

/-! ## Port allocator (`find_preferred_port`, src/app runtime.rs lines 96-106)

The bind probe `TcpListener::bind(("127.0.0.1", port)).is_ok()` is modelled
by the oracle `canBind : Nat → Bool` giving the outcome of a bind attempt
on each port at selection time. -/

/-- Rust `DEFAULT_PORT: u16 = 11435`. -/
def DEFAULT_PORT : Nat := 11435

/-- Embeds `find_preferred_port`: try binding 11435; if that fails, scan
11436..=11550 in ascending order and return the first bindable port. -/
def find_preferred_port (canBind : Nat → Bool) : Option Nat :=
  if canBind DEFAULT_PORT then
    some DEFAULT_PORT
  else
    (List.range' (DEFAULT_PORT + 1) 115).find? canBind

/-! ## Option normalization (`runtime_generate` lines 462-473, `runtime_chat` lines 382-388) -/

/-- Rust `GenerateOptions` (all fields `#[serde(default)]`, so the default
value is all zeroes). -/
structure GenerateOptions where
  temperature : ℚ := 0
  top_p : ℚ := 0
  max_tokens : Int := 0
deriving DecidableEq

instance : Inhabited GenerateOptions := ⟨{}⟩

/-- Rust `ChatOptions` (src/app variant: `max_tokens`, `temperature`). -/
structure ChatOptions where
  max_tokens : Int := 0
  temperature : ℚ := 0
deriving DecidableEq

instance : Inhabited ChatOptions := ⟨{}⟩

/-- Effective `(temperature, top_p, n_predict)` used by `runtime_generate`
(lines 462-473): a value of exactly `0.0` for temperature / top-p is
replaced by `0.7` / `0.9`; a non-positive `max_tokens` is replaced by
`2048`; everything else is forwarded unchanged. -/
def generateEffective (options : Option GenerateOptions) : ℚ × ℚ × Int :=
  let opt := options.getD {}
  ( if opt.temperature ≠ 0 then opt.temperature else 7/10
  , if opt.top_p ≠ 0 then opt.top_p else 9/10
  , if opt.max_tokens > 0 then opt.max_tokens else 2048 )

/-- Effective `(max_tokens, temperature)` used by `runtime_chat`
(lines 382-388): non-positive `max_tokens` becomes `512`; a temperature
outside `[0, 2]` becomes `0.5`. The chat request's top-p is the fixed
literal `0.9`. -/
def chatEffective (options : Option ChatOptions) : Int × ℚ :=
  let opt := options.getD {}
  ( if opt.max_tokens > 0 then opt.max_tokens else 512
  , if 0 ≤ opt.temperature ∧ opt.temperature ≤ 2 then opt.temperature else 1/2 )

/-- The "sane domain" for a temperature, as the code itself uses in
`runtime_chat`: `0.0 <= t <= 2.0`. -/
def saneTemperature (t : ℚ) : Prop := 0 ≤ t ∧ t ≤ 2

/-! ## A model of `serde_json` values and parsing

The runtime decodes HTTP bodies and SSE payloads with `serde_json`.  We
model JSON values and an executable recursive-descent parser; numbers are
kept as their raw text (the runtime never reads a numeric field). -/

inductive Json where
  | null : Json
  | jbool (b : Bool) : Json
  | num (raw : String) : Json
  | str (s : String) : Json
  | arr (items : List Json) : Json
  | obj (members : List (String × Json)) : Json
deriving Inhabited

/-- Skip JSON insignificant whitespace (space, tab, newline, carriage return). -/
def skipWs : List Char → List Char
  | [] => []
  | c :: cs => if c = ' ' ∨ c = '\t' ∨ c = '\n' ∨ c = '\r' then skipWs cs else c :: cs

/-- Hex digit value. -/
def hexVal (c : Char) : Option Nat :=
  if '0' ≤ c ∧ c ≤ '9' then some (c.toNat - '0'.toNat)
  else if 'a' ≤ c ∧ c ≤ 'f' then some (c.toNat - 'a'.toNat + 10)
  else if 'A' ≤ c ∧ c ≤ 'F' then some (c.toNat - 'A'.toNat + 10)
  else none

/-- Parse the body of a JSON string literal (the opening quote already
consumed); returns the decoded string and the remaining input. -/
def parseStrBody : Nat → List Char → Option (String × List Char)
  | 0, _ => none
  | _, [] => none
  | fuel + 1, c :: cs =>
    if c = '"' then some ("", cs)
    else if c = '\\' then
      match cs with
      | [] => none
      | e :: cs2 =>
        let esc : Option (Char × List Char) :=
          if e = '"' then some ('"', cs2)
          else if e = '\\' then some ('\\', cs2)
          else if e = '/' then some ('/', cs2)
          else if e = 'b' then some ('\x08', cs2)
          else if e = 'f' then some ('\x0c', cs2)
          else if e = 'n' then some ('\n', cs2)
          else if e = 'r' then some ('\r', cs2)
          else if e = 't' then some ('\t', cs2)
          else if e = 'u' then
            match cs2 with
            | h1 :: h2 :: h3 :: h4 :: cs3 =>
              match hexVal h1, hexVal h2, hexVal h3, hexVal h4 with
              | some a, some b, some c', some d =>
                let n := ((a * 16 + b) * 16 + c') * 16 + d
                if 0xD800 ≤ n ∧ n ≤ 0xDFFF then none else some (Char.ofNat n, cs3)
              | _, _, _, _ => none
            | _ => none
          else none
        match esc with
        | some (ch, rest) =>
          match parseStrBody fuel rest with
          | some (s, rest') => some (⟨ch :: s.data⟩, rest')
          | none => none
        | none => none
    else if c.toNat < 0x20 then none
    else
      match parseStrBody fuel cs with
      | some (s, rest') => some (⟨c :: s.data⟩, rest')
      | none => none

/-- Parse a JSON number (raw text), following the JSON grammar:
`-? (0 | [1-9][0-9]*) frac? exp?`. -/
def parseNum (cs : List Char) : Option (String × List Char) :=
  let (negPart, cs1) :=
    match cs with
    | '-' :: r => (['-'], r)
    | _ => (([] : List Char), cs)
  let intPart : Option (List Char × List Char) :=
    match cs1 with
    | '0' :: r => some (['0'], r)
    | c :: _ =>
      if '1' ≤ c ∧ c ≤ '9' then
        let sp := cs1.span Char.isDigit
        some (sp.1, sp.2)
      else none
    | [] => none
  match intPart with
  | none => none
  | some (ip, cs2) =>
    let fracPart : Option (List Char × List Char) :=
      match cs2 with
      | '.' :: r =>
        let sp := r.span Char.isDigit
        if sp.1.isEmpty then none else some ('.' :: sp.1, sp.2)
      | _ => some ([], cs2)
    match fracPart with
    | none => none
    | some (fp, cs3) =>
      let expPart : Option (List Char × List Char) :=
        match cs3 with
        | e :: r =>
          if e = 'e' ∨ e = 'E' then
            let (sgn, r2) :=
              match r with
              | '+' :: r' => (['+'], r')
              | '-' :: r' => (['-'], r')
              | _ => (([] : List Char), r)
            let sp := r2.span Char.isDigit
            if sp.1.isEmpty then none else some (e :: (sgn ++ sp.1), sp.2)
          else some ([], cs3)
        | [] => some ([], cs3)
      match expPart with
      | none => none
      | some (ep, cs4) => some (⟨negPart ++ ip ++ fp ++ ep⟩, cs4)

/-- Parser mode: one value, object members (after `{`, `first` while no
member has been read), a non-empty member list, array items (after `[`),
or a non-empty item list.  A single fuel-indexed function keeps the
recursion structural so that it evaluates inside the kernel. -/
inductive PMode where
  | val : PMode
  | members (first : Bool) : PMode
  | mlist : PMode
  | items (first : Bool) : PMode
  | ilist : PMode

/-- The recursive-descent JSON parser.  In mode `.val` it returns the
parsed value; in the object modes it returns `.obj ms`; in the array
modes it returns `.arr xs`. -/
def parseJ : Nat → PMode → List Char → Option (Json × List Char)
  | 0, _, _ => none
  | fuel + 1, .val, cs =>
    match skipWs cs with
    | [] => none
    | c :: rest =>
      if c = '"' then
        match parseStrBody fuel rest with
        | some (s, rest') => some (.str s, rest')
        | none => none
      else if c = '\x7b' then parseJ fuel (.members true) rest
      else if c = '[' then parseJ fuel (.items true) rest
      else if c = 't' then
        match rest with
        | 'r' :: 'u' :: 'e' :: r => some (.jbool true, r)
        | _ => none
      else if c = 'f' then
        match rest with
        | 'a' :: 'l' :: 's' :: 'e' :: r => some (.jbool false, r)
        | _ => none
      else if c = 'n' then
        match rest with
        | 'u' :: 'l' :: 'l' :: r => some (.null, r)
        | _ => none
      else
        match parseNum (c :: rest) with
        | some (raw, rest') => some (.num raw, rest')
        | none => none
  | fuel + 1, .members first, cs =>
    match skipWs cs with
    | [] => none
    | c :: rest =>
      if c = '\x7d' then
        if first then some (.obj [], rest) else none
      else parseJ fuel .mlist (c :: rest)
  | fuel + 1, .mlist, cs =>
    match skipWs cs with
    | '"' :: rest =>
      match parseStrBody fuel rest with
      | some (key, rest1) =>
        match skipWs rest1 with
        | ':' :: rest2 =>
          match parseJ fuel .val rest2 with
          | some (v, rest3) =>
            match skipWs rest3 with
            | ',' :: rest4 =>
              match parseJ fuel .mlist rest4 with
              | some (.obj ms, rest5) => some (.obj ((key, v) :: ms), rest5)
              | _ => none
            | '\x7d' :: rest4 => some (.obj [(key, v)], rest4)
            | _ => none
          | none => none
        | _ => none
      | none => none
    | _ => none
  | fuel + 1, .items first, cs =>
    match skipWs cs with
    | [] => none
    | c :: rest =>
      if c = ']' then
        if first then some (.arr [], rest) else none
      else parseJ fuel .ilist (c :: rest)
  | fuel + 1, .ilist, cs =>
    match parseJ fuel .val cs with
    | some (v, rest) =>
      match skipWs rest with
      | ',' :: rest2 =>
        match parseJ fuel .ilist rest2 with
        | some (.arr xs, rest3) => some (.arr (v :: xs), rest3)
        | _ => none
      | ']' :: rest2 => some (.arr [v], rest2)
      | _ => none
    | none => none

/-- `serde_json::from_str`-style top-level parse: one value, then only
trailing whitespace. -/
def Json.parse (s : String) : Option Json :=
  match parseJ (3 * s.length + 16) .val s.data with
  | some (j, rest) => if skipWs rest = [] then some j else none
  | none => none

/-- First member with the given key (serde reads each field once; the
bodies we reason about have no duplicate keys). -/
def jLookup (members : List (String × Json)) (k : String) : Option Json :=
  (members.find? (fun kv => kv.1.data == k.data)).map (fun kv => kv.2)

/-! ## UTF-8 decoding (model of `std::str::from_utf8`) -/

/-- A UTF-8 continuation byte. -/
def contByte (b : Nat) : Prop := 0x80 ≤ b ∧ b ≤ 0xBF

instance (b : Nat) : Decidable (contByte b) := by unfold contByte; infer_instance

/-- Model of `std::str::from_utf8`: strict UTF-8 validation and decoding
(shortest form enforced, surrogates rejected). -/
def decodeUtf8 : List Nat → Option (List Char)
  | [] => some []
  | b :: bs =>
    if b ≤ 0x7F then (decodeUtf8 bs).map (fun cs => Char.ofNat b :: cs)
    else if 0xC2 ≤ b ∧ b ≤ 0xDF then
      match bs with
      | b2 :: bs2 =>
        if contByte b2 then
          (decodeUtf8 bs2).map (fun cs => Char.ofNat ((b - 0xC0) * 64 + (b2 - 0x80)) :: cs)
        else none
      | [] => none
    else if 0xE0 ≤ b ∧ b ≤ 0xEF then
      match bs with
      | b2 :: b3 :: bs3 =>
        let lo2 := if b = 0xE0 then 0xA0 else 0x80
        let hi2 := if b = 0xED then 0x9F else 0xBF
        if (lo2 ≤ b2 ∧ b2 ≤ hi2) ∧ contByte b3 then
          (decodeUtf8 bs3).map
            (fun cs => Char.ofNat ((b - 0xE0) * 4096 + (b2 - 0x80) * 64 + (b3 - 0x80)) :: cs)
        else none
      | _ => none
    else if 0xF0 ≤ b ∧ b ≤ 0xF4 then
      match bs with
      | b2 :: b3 :: b4 :: bs4 =>
        let lo2 := if b = 0xF0 then 0x90 else 0x80
        let hi2 := if b = 0xF4 then 0x8F else 0xBF
        if (lo2 ≤ b2 ∧ b2 ≤ hi2) ∧ contByte b3 ∧ contByte b4 then
          (decodeUtf8 bs4).map
            (fun cs =>
              Char.ofNat ((b - 0xF0) * 262144 + (b2 - 0x80) * 4096 +
                (b3 - 0x80) * 64 + (b4 - 0x80)) :: cs)
        else none
      | _ => none
    else none

/-! ## SSE line processor (`process_sse_buf`, archive runtime.rs lines 489-525)

The Rust function scans a growing byte buffer for complete lines (a bare
`\n`, or `\r\n` when both bytes are present in the buffer), handles each
complete line, and drains the processed prefix, leaving any trailing
partial line buffered.  A handled line is decoded (`from_utf8`,
`unwrap_or("")`), trimmed, and, when it starts with `"data: "`, the
payload after the prefix is trimmed; `[DONE]` and empty payloads are
skipped; other payloads are parsed as a `CompletionChunk`
`{ content: Option<String>, stop: bool }` and a present `content` is
appended to the accumulated text and emitted as one token event. -/

/-- Whitespace as trimmed by `str::trim` (restricted to the ASCII
whitespace present in the streams considered: space, tab, LF, CR). -/
def isWsChar (c : Char) : Bool := c = ' ' ∨ c = '\t' ∨ c = '\n' ∨ c = '\r'

/-- Model of `str::trim`: drop whitespace from both ends. -/
def trimChars (cs : List Char) : List Char :=
  ((cs.dropWhile isWsChar).reverse.dropWhile isWsChar).reverse

/-- Accumulated output of the streaming loop: the `full_text` characters
and the token events emitted so far (`app.emit("llama-stream-token", ...)`),
in emission order. -/
structure SseAcc where
  fullText : List Char
  events : List (List Char)
deriving DecidableEq

/-- Model of serde's `CompletionChunk` decode: an object whose optional
`content` member is a string (absent or `null` means no content) and whose
optional `stop` member is a bool (absent means `false`); any type mismatch
or non-object payload fails. -/
def parseCompletionChunk (s : String) : Option (Option String × Bool) :=
  match Json.parse s with
  | some (.obj members) =>
    let contentF : Option (Option String) :=
      match jLookup members "content" with
      | none => some none
      | some .null => some none
      | some (.str c) => some (some c)
      | some _ => none
    let stopF : Option Bool :=
      match jLookup members "stop" with
      | none => some false
      | some (.jbool b) => some b
      | some _ => none
    match contentF, stopF with
    | some c, some b => some (c, b)
    | _, _ => none
  | _ => none

/-- Handle one complete line of the SSE stream (the body of the
line-processing branch of `process_sse_buf`): decode with
`from_utf8(..).unwrap_or("")`, `trim`, require the `"data: "` prefix, trim
the payload, skip `[DONE]` and empty payloads, and otherwise decode a
`CompletionChunk`, appending and emitting a present `content`. -/
def handleLine (lineBytes : List Nat) (a : SseAcc) : SseAcc :=
  let line := (decodeUtf8 lineBytes).getD []
  let line := trimChars line
  if leadsWith "data: ".data line then
    let rest := trimChars (line.drop 6)
    if rest = "[DONE]".data ∨ rest = [] then a
    else
      match parseCompletionChunk (String.mk rest) with
      | some (some c, _) => { fullText := a.fullText ++ c.data, events := a.events ++ [c.data] }
      | _ => a
  else a

/-- The scanning loop of `process_sse_buf`.  `pending` holds the bytes of
the current line seen so far (the region between `keep` and `i` in the
Rust loop); `rest` is the unscanned part of the buffer.  A bare `\n`
terminates a line; `\r` terminates one only when the following byte is
already in the buffer and is `\n`; any other byte (including a lone `\r`)
joins the pending line.  The result is the undrained remainder plus the
updated accumulator. -/
def sseScan : List Nat → List Nat → SseAcc → List Nat × SseAcc
  | pending, [], a => (pending, a)
  | pending, [b], a =>
    if b = 10 then ([], handleLine pending a) else (pending ++ [b], a)
  | pending, b :: b2 :: rs, a =>
    if b = 10 then sseScan [] (b2 :: rs) (handleLine pending a)
    else if b = 13 ∧ b2 = 10 then sseScan [] rs (handleLine pending a)
    else sseScan (pending ++ [b]) (b2 :: rs) a


/-- State carried between reads of the byte stream: the undrained buffer
plus the accumulated output. -/
structure SseState where
  buf : List Nat
  acc : SseAcc
deriving DecidableEq

/-- Initial state: empty buffer, empty accumulated text, no events. -/
def sseInit : SseState := ⟨[], ⟨[], []⟩⟩

/-- `process_sse_buf`: scan the whole buffer from its start (the Rust
loop starts at `i = 0` with `keep = 0`), handling every complete line and
draining the processed prefix; returns the undrained remainder and the
updated accumulator. -/
def process_sse_buf (buf : List Nat) (a : SseAcc) : List Nat × SseAcc :=
  sseScan [] buf a

/-- One read iteration of the streaming loops (`buf.extend_from_slice`
followed by `process_sse_buf`): append the chunk to the buffer and rescan
from the start of the buffer. -/
def feedChunk (st : SseState) (chunk : List Nat) : SseState :=
  let r := process_sse_buf (st.buf ++ chunk) st.acc
  ⟨r.1, r.2⟩

/-- The ASCII bytes of a string (every stream considered here is ASCII). -/
def asciiBytes (s : String) : List Nat := s.data.map Char.toNat

/-- The fixed test stream of the SSE chunking property. -/
def sseTestStream : List Nat :=
  asciiBytes "data: \x7b\"content\":\"He\"\x7d\ndata: \x7b\"content\":\"llo\"\x7d\ndata: [DONE]\n"

/-! ### Chunking-independence of the SSE processor -/

theorem sseScan_nil (p : List Nat) (a : SseAcc) : sseScan p [] a = (p, a) := rfl

theorem sseScan_lf (p rs : List Nat) (a : SseAcc) :
    sseScan p (10 :: rs) a = sseScan [] rs (handleLine p a) := by
  cases rs with
  | nil => simp [sseScan]
  | cons b2 rs2 => simp [sseScan]

theorem sseScan_plain (p rs : List Nat) (a : SseAcc) (b : Nat)
    (h10 : b ≠ 10) (h13 : b ≠ 13) :
    sseScan p (b :: rs) a = sseScan (p ++ [b]) rs a := by
  cases rs with
  | nil => simp [sseScan, h10]
  | cons b2 rs2 => simp [sseScan, h10, h13]

/-- Pending-line bytes that can never complete or start a line terminator:
no `\r` and no `\n`. -/
def cleanP (p : List Nat) : Prop := ∀ b ∈ p, b ≠ 13 ∧ b ≠ 10

theorem cleanP_nil : cleanP [] := by intro b hb; cases hb

theorem cleanP_push (p : List Nat) (b : Nat) (hp : cleanP p)
    (h13 : b ≠ 13) (h10 : b ≠ 10) : cleanP (p ++ [b]) := by
  intro x hx
  rcases List.mem_append.1 hx with h | h
  · exact hp x h
  · simp at h; subst h; exact ⟨h13, h10⟩

/-- Scanning a `\r`-free extension of a clean pending line leaves a clean
remainder (no terminator byte ever enters the pending line). -/
theorem sseScan_clean (xs : List Nat) : ∀ p a, cleanP p → (∀ b ∈ xs, b ≠ 13) →
    cleanP (sseScan p xs a).1 := by
  induction xs with
  | nil => intro p a hp _; simpa [sseScan_nil] using hp
  | cons b rs ih =>
    intro p a hp hxs
    by_cases h10 : b = 10
    · subst h10
      rw [sseScan_lf]
      exact ih [] _ cleanP_nil (fun x hx => hxs x (by simp [hx]))
    · have h13 : b ≠ 13 := hxs b (by simp)
      rw [sseScan_plain p rs a b h10 h13]
      exact ih _ _ (cleanP_push p b hp h13 h10) (fun x hx => hxs x (by simp [hx]))

/-- Rescanning an already-buffered clean pending line is inert: the
scanner just moves it back into the pending position. -/
theorem sseScan_rescan (p : List Nat) : ∀ q ys a, cleanP p →
    sseScan q (p ++ ys) a = sseScan (q ++ p) ys a := by
  induction p with
  | nil => intro q ys a _; simp
  | cons b p' ih =>
    intro q ys a hp
    have h13 : b ≠ 13 := (hp b (by simp)).1
    have h10 : b ≠ 10 := (hp b (by simp)).2
    rw [List.cons_append, sseScan_plain q (p' ++ ys) a b h10 h13,
      ih (q ++ [b]) ys a (fun x hx => hp x (by simp [hx]))]
    simp

/-- Scanning `xs` and then rescanning the remainder extended by `ys` is
the same as scanning `xs ++ ys` in one pass (for `\r`-free input, which
covers every stream considered). -/
theorem sseScan_comp (xs : List Nat) : ∀ p a ys, cleanP p → (∀ b ∈ xs, b ≠ 13) →
    sseScan [] ((sseScan p xs a).1 ++ ys) (sseScan p xs a).2 = sseScan p (xs ++ ys) a := by
  induction xs with
  | nil =>
    intro p a ys hp _
    rw [sseScan_nil]
    simpa using sseScan_rescan p [] ys a hp
  | cons b rs ih =>
    intro p a ys hp hxs
    by_cases h10 : b = 10
    · subst h10
      rw [sseScan_lf, List.cons_append, sseScan_lf]
      exact ih [] (handleLine p a) ys cleanP_nil (fun x hx => hxs x (by simp [hx]))
    · have h13 : b ≠ 13 := hxs b (by simp)
      rw [sseScan_plain p rs a b h10 h13, List.cons_append,
        sseScan_plain p (rs ++ ys) a b h10 h13]
      exact ih (p ++ [b]) a ys (cleanP_push p b hp h13 h10)
        (fun x hx => hxs x (by simp [hx]))

theorem feedChunk_clean (st : SseState) (c : List Nat) (hb : cleanP st.buf)
    (hc : ∀ b ∈ c, b ≠ 13) : cleanP (feedChunk st c).buf := by
  unfold feedChunk process_sse_buf
  exact sseScan_clean (st.buf ++ c) [] st.acc cleanP_nil
    (fun x hx => by
      rcases List.mem_append.1 hx with h | h
      · exact (hb x h).1
      · exact hc x h)

theorem feedChunk_append (st : SseState) (c1 c2 : List Nat) (hb : cleanP st.buf)
    (h1 : ∀ b ∈ c1, b ≠ 13) :
    feedChunk (feedChunk st c1) c2 = feedChunk st (c1 ++ c2) := by
  unfold feedChunk process_sse_buf
  have h := sseScan_comp (st.buf ++ c1) [] st.acc c2 cleanP_nil
    (fun x hx => by
      rcases List.mem_append.1 hx with h | h
      · exact (hb x h).1
      · exact h1 x h)
  simp only at h ⊢
  rw [h, List.append_assoc]

theorem feedChunk_nil (st : SseState) (hb : cleanP st.buf) : feedChunk st [] = st := by
  unfold feedChunk process_sse_buf
  have h := sseScan_rescan st.buf [] [] st.acc hb
  simp only [List.append_nil, List.nil_append, sseScan_nil] at h
  simp [h]

/-- Feeding a sequence of chunks is the same as feeding their
concatenation in one read (for `\r`-free streams). -/
theorem foldl_feedChunk (cs : List (List Nat)) : ∀ st, cleanP st.buf →
    (∀ c ∈ cs, ∀ b ∈ c, b ≠ 13) →
    cs.foldl feedChunk st = feedChunk st cs.flatten := by
  induction cs with
  | nil =>
    intro st hb _
    simpa [List.foldl] using (feedChunk_nil st hb).symm
  | cons c cs' ih =>
    intro st hb hcs
    have hc : ∀ b ∈ c, b ≠ 13 := hcs c (by simp)
    have hb' : cleanP (feedChunk st c).buf := feedChunk_clean st c hb hc
    calc (c :: cs').foldl feedChunk st = cs'.foldl feedChunk (feedChunk st c) := rfl
      _ = feedChunk (feedChunk st c) cs'.flatten := ih _ hb' (fun d hd => hcs d (by simp [hd]))
      _ = feedChunk st (c ++ cs'.flatten) := feedChunk_append st c cs'.flatten hb hc
      _ = feedChunk st ((c :: cs').flatten) := by simp

/-- **C1.** For every way of splitting the byte stream
`"data: {\"content\":\"He\"}\ndata: {\"content\":\"llo\"}\ndata: [DONE]\n"`
into chunks (including one byte per chunk), repeatedly appending each
chunk to the buffer and running the SSE line processor `process_sse_buf`
emits exactly two token events, `"He"` then `"llo"`, and the accumulated
full text at end of stream is `"Hello"`, independent of where the chunk
boundaries fall. -/
theorem sse_chunk_independence (cs : List (List Nat)) (h : cs.flatten = sseTestStream) :
    (cs.foldl feedChunk sseInit).acc.events = ["He".data, "llo".data] ∧
    (cs.foldl feedChunk sseInit).acc.fullText = "Hello".data := by
  have h13 : ∀ c ∈ cs, ∀ b ∈ c, b ≠ 13 := by
    intro c hc b hb hb13
    subst hb13
    have hmem : (13 : Nat) ∈ cs.flatten := List.mem_flatten.2 ⟨c, hc, hb⟩
    rw [h] at hmem
    revert hmem
    decide
  rw [foldl_feedChunk cs sseInit (by intro b hb; cases hb) h13, h]
  decide

/-- Witness for `sse_chunk_independence`: the one-byte-per-chunk split. -/
theorem sse_chunk_independence_witness :
    ((sseTestStream.map (fun b => [b])).foldl feedChunk sseInit).acc.events
        = ["He".data, "llo".data] ∧
    ((sseTestStream.map (fun b => [b])).foldl feedChunk sseInit).acc.fullText
        = "Hello".data :=
  sse_chunk_independence (sseTestStream.map (fun b => [b])) (by decide)

/-! ## HTTP exchanges and body decoding for the completion proxy -/

/-- Outcome of one HTTP request, as observed by the caller of `reqwest`:
either a transport error (with its display string) or a response with a
status code and a body. -/
inductive Transport where
  | err (msg : String) : Transport
  | resp (status : Nat) (body : String) : Transport
deriving DecidableEq

/-- `reqwest::StatusCode::is_success()`: `200 <= status < 300`. -/
def isSuccess (status : Nat) : Prop := 200 ≤ status ∧ status < 300

instance (status : Nat) : Decidable (isSuccess status) := by
  unfold isSuccess; infer_instance

/-- Model of `str::trim` on strings (see `trimChars`). -/
def strTrim (s : String) : String := ⟨trimChars s.data⟩

/-- Decimal digits of a positive number (fuelled, most significant first). -/
def natDigitsAux : Nat → Nat → List Char
  | 0, _ => []
  | fuel + 1, n => if n = 0 then [] else natDigitsAux fuel (n / 10) ++ [Char.ofNat (48 + n % 10)]

/-- Decimal rendering of a `Nat` (ports and HTTP status codes in error
messages; the reason phrase reqwest appends after the code is omitted). -/
def natToString (n : Nat) : String := if n = 0 then "0" else ⟨natDigitsAux (n + 1) n⟩

/-- The URL of the raw completion endpoint for a port. -/
def completionUrl (port : Nat) : String :=
  "http://127.0.0.1:" ++ natToString port ++ "/completion"

/-- The URL of the OpenAI-style chat-completions endpoint for a port. -/
def chatCompletionsUrl (port : Nat) : String :=
  "http://127.0.0.1:" ++ natToString port ++ "/v1/chat/completions"

/-- Fixed stand-in for the display of a `serde_json` decode error (the
real text, e.g. "expected value at line 1 column 1", never mentions an
endpoint, a status, or the response body). -/
def jsonErrDisplay : String := "expected value at line 1 column 1"

/-- Model of `resp.json::<CompletionResponse>()`: `none` is a decode
error; `some c` is a decoded body whose optional `content` field is `c`. -/
def parseCompletionResponse (body : String) : Option (Option String) :=
  match Json.parse body with
  | some (.obj members) =>
    match jLookup members "content" with
    | none => some none
    | some .null => some none
    | some (.str c) => some (some c)
    | some _ => none
  | _ => none

/-- A JSON value that decodes as a `ChatChoice`
`{ message: Option<{ content: Option<String> }> }`. -/
def validChoice : Json → Bool
  | .obj f =>
    match jLookup f "message" with
    | none => true
    | some .null => true
    | some (.obj m) =>
      (match jLookup m "content" with
       | none => true
       | some .null => true
       | some (.str _) => true
       | some _ => false)
    | some _ => false
  | _ => false

/-- The content extracted from a chat-completions response body by the
`if let` chain of `runtime_chat`: decode `ChatCompletionsResponse`, take
`choices`, the first choice, its `message`, its `content`.  `none` covers
both a decode error and an absent link of the chain — the code treats
them identically (fall through to the raw completion endpoint). -/
def chatContentFromBody (body : String) : Option String :=
  match Json.parse body with
  | some (.obj members) =>
    match jLookup members "choices" with
    | none => none
    | some .null => none
    | some (.arr items) =>
      if items.all validChoice then
        match items with
        | [] => none
        | first :: _ =>
          match first with
          | .obj f =>
            match jLookup f "message" with
            | some (.obj m) =>
              match jLookup m "content" with
              | some (.str c) => some c
              | _ => none
            | _ => none
          | _ => none
      else none
    | some _ => none
  | _ => none

/-- The usable content of the first chat-completions attempt: requires a
received response, a success status, and an extractable content string. -/
def chatAttemptContent : Transport → Option String
  | .err _ => none
  | .resp st body => if isSuccess st then chatContentFromBody body else none

/-! ## Completion proxy, non-streaming chat
(`runtime_chat`, src/app runtime.rs lines 368-448) -/

/-- One outbound HTTP request issued by the proxy. -/
inductive Request where
  | chatCompletions (maxTokens : Int) (temperature : ℚ) (systemPrompt userPrompt : String)
  | completion (prompt : String) (nPredict : Int) (temperature topP : ℚ) (stream : Bool)
deriving DecidableEq

/-- Responses the two chat endpoints would give this call. -/
structure ChatServer where
  chatCompletions : Transport
  completion : Transport
deriving DecidableEq

/-- The transport-failure error of the raw completion attempt (line 435). -/
def reqFailedMsg (e : String) (p : Nat) : String :=
  "Request failed: " ++ e ++ "\nEndpoint: " ++ completionUrl p ++ " (no response)"

/-- The non-success-status error of the raw completion attempt (lines 440-443). -/
def llamaErrMsg (st : Nat) (body : String) (p : Nat) : String :=
  "llama-server error " ++ natToString st ++ ": " ++ body
    ++ "\nEndpoint: " ++ completionUrl p ++ " HTTP " ++ natToString st

/-- The "not started" error of `runtime_chat` (line 378). -/
def notStartedChatMsg : String :=
  "Runtime not started. Start the runtime with a GGUF model first.\nEndpoint: n/a (runtime not started)"

/-- Embeds `runtime_chat` (non-streaming variant): read the recorded port
(fail if none), normalize options, try `/v1/chat/completions`, and on any
transport failure / non-success status / unusable body fall back to
`/completion` with the trimmed prompts concatenated.  Returns the result,
the requests issued in order, and the (unmodified) recorded port. -/
def runtime_chat (systemPrompt userPrompt : String) (options : Option ChatOptions)
    (port : Option Nat) (srv : ChatServer) :
    Except String String × List Request × Option Nat :=
  match port with
  | none => (.error notStartedChatMsg, [], none)
  | some p =>
    let eff := chatEffective options
    let maxTokens := eff.1
    let temperature := eff.2
    let combined := strTrim systemPrompt ++ "\n\n" ++ strTrim userPrompt
    let firstReq : Request := .chatCompletions maxTokens temperature systemPrompt userPrompt
    match chatAttemptContent srv.chatCompletions with
    | some c => (.ok (strTrim c), [firstReq], some p)
    | none =>
      let secondReq : Request := .completion combined maxTokens temperature (9/10) false
      match srv.completion with
      | .err e => (.error (reqFailedMsg e p), [firstReq, secondReq], some p)
      | .resp st body =>
        if isSuccess st then
          match parseCompletionResponse body with
          | none => (.error ("Parse error: " ++ jsonErrDisplay), [firstReq, secondReq], some p)
          | some c => (.ok (strTrim (c.getD "")), [firstReq, secondReq], some p)
        else
          (.error (llamaErrMsg st body p), [firstReq, secondReq], some p)

/-! ## Completion proxy, generate
(`runtime_generate`, src/app runtime.rs lines 450-500) -/

/-- The "not started" error of `runtime_generate` (line 459). -/
def notStartedGenMsg : String :=
  "Runtime not started. Start the runtime with a GGUF model first."

/-- Embeds `runtime_generate` (src/app variant): read the recorded port
(fail if none), normalize options, POST `/completion` once, and decode
`{ content }` from the response.  Returns the result, the requests issued,
and the (unmodified) recorded port. -/
def runtime_generate (prompt : String) (stream : Bool) (options : Option GenerateOptions)
    (port : Option Nat) (srv : Transport) :
    Except String String × List Request × Option Nat :=
  match port with
  | none => (.error notStartedGenMsg, [], none)
  | some p =>
    let eff := generateEffective options
    let req : Request := .completion prompt eff.2.2 eff.1 eff.2.1 stream
    match srv with
    | .err e => (.error ("Request failed: " ++ e), [req], some p)
    | .resp st body =>
      if isSuccess st then
        match parseCompletionResponse body with
        | none => (.error ("Parse error: " ++ jsonErrDisplay), [req], some p)
        | some c => (.ok (c.getD ""), [req], some p)
      else (.error ("Server error " ++ natToString st ++ ": " ++ body), [req], some p)

/-- The raw-completion attempt of the fallback chain (lines 421-447): the
result determined by the `/completion` exchange alone. -/
def completionFallback (p : Nat) : Transport → Except String String
  | .err e => .error (reqFailedMsg e p)
  | .resp st body =>
    if isSuccess st then
      match parseCompletionResponse body with
      | none => .error ("Parse error: " ++ jsonErrDisplay)
      | some c => .ok (strTrim (c.getD ""))
    else .error (llamaErrMsg st body p)

/-! ### Containment facts about the fallback error messages -/

theorem strContains_append_right (u s t : String) (h : strContains s t = true) :
    strContains (u ++ s) t = true := by
  unfold strContains at h ⊢
  rw [data_append]
  exact hasSub_append_left _ _ _ h

theorem strContains_self (t : String) : strContains t t = true := by
  unfold strContains
  simpa using hasSub_self_append t.data []

theorem leadsWith_append_right (t : List Char) : ∀ s v, leadsWith t s = true →
    leadsWith t (s ++ v) = true := by
  induction t with
  | nil => intro s v _; rfl
  | cons a as ih =>
    intro s v h
    cases s with
    | nil => simp [leadsWith] at h
    | cons b bs =>
      simp only [leadsWith, Bool.and_eq_true] at h
      simp only [List.cons_append, leadsWith, Bool.and_eq_true]
      exact ⟨h.1, ih bs v h.2⟩

theorem hasSub_extend_right (t : List Char) : ∀ s v, hasSub t s = true →
    hasSub t (s ++ v) = true := by
  intro s
  induction s with
  | nil =>
    intro v h
    cases t with
    | nil => cases v <;> simp [hasSub, leadsWith]
    | cons x xs => simp [hasSub, leadsWith] at h
  | cons c s' ih =>
    intro v h
    simp only [hasSub, Bool.or_eq_true] at h
    simp only [List.cons_append, hasSub, Bool.or_eq_true]
    rcases h with h | h
    · exact Or.inl (by simpa [List.cons_append] using leadsWith_append_right t (c :: s') v h)
    · exact Or.inr (ih v h)

theorem strContains_extend_right (s v t : String) (h : strContains s t = true) :
    strContains (s ++ v) t = true := by
  unfold strContains at h ⊢
  rw [data_append]
  exact hasSub_extend_right _ _ _ h

theorem reqFailedMsg_names_endpoint (e : String) (p : Nat) :
    strContains (reqFailedMsg e p) (completionUrl p) = true := by
  unfold reqFailedMsg
  exact strContains_extend_right _ _ _
    (strContains_append_right _ _ _ (strContains_self _))

theorem llamaErrMsg_names_endpoint (st : Nat) (body : String) (p : Nat) :
    strContains (llamaErrMsg st body p) (completionUrl p) = true := by
  unfold llamaErrMsg
  exact strContains_extend_right _ _ _ (strContains_extend_right _ _ _
    (strContains_append_right _ _ _ (strContains_self _)))

theorem llamaErrMsg_names_status (st : Nat) (body : String) (p : Nat) :
    strContains (llamaErrMsg st body p) (natToString st) = true := by
  unfold llamaErrMsg
  exact strContains_append_right _ _ _ (strContains_self _)

theorem llamaErrMsg_names_body (st : Nat) (body : String) (p : Nat) :
    strContains (llamaErrMsg st body p) body = true := by
  unfold llamaErrMsg
  exact strContains_extend_right _ _ _ (strContains_extend_right _ _ _
    (strContains_extend_right _ _ _ (strContains_extend_right _ _ _
      (strContains_append_right _ _ _ (strContains_self _)))))

/-- **C2 (amended).** The non-streaming chat call tries
`/v1/chat/completions` first; a usable content there is returned trimmed
with no second request.  On a transport failure, non-success status, or
unusable body it issues the `/completion` request with the trimmed
prompts concatenated, and the result is exactly the raw-completion
attempt's outcome.  When `/completion` itself fails by transport error or
non-success status, the error names the `/completion` URL (and the status
and body when a response was received).  The one both-attempts-failed
case whose error names neither endpoint is a success-status `/completion`
response whose body fails to decode ("Parse error: ..."), see the
counterexample. -/
theorem chat_fallback_chain (sys usr : String) (opts : Option ChatOptions) (p : Nat)
    (srv : ChatServer) :
    (∀ c, chatAttemptContent srv.chatCompletions = some c →
      runtime_chat sys usr opts (some p) srv
        = (.ok (strTrim c),
           [.chatCompletions (chatEffective opts).1 (chatEffective opts).2 sys usr], some p)) ∧
    (chatAttemptContent srv.chatCompletions = none →
      runtime_chat sys usr opts (some p) srv
        = (completionFallback p srv.completion,
           [.chatCompletions (chatEffective opts).1 (chatEffective opts).2 sys usr,
            .completion (strTrim sys ++ "\n\n" ++ strTrim usr) (chatEffective opts).1
              (chatEffective opts).2 (9/10) false], some p)) ∧
    (∀ e, completionFallback p (.err e) = .error (reqFailedMsg e p) ∧
      strContains (reqFailedMsg e p) (completionUrl p) = true) ∧
    (∀ st body, ¬ isSuccess st →
      completionFallback p (.resp st body) = .error (llamaErrMsg st body p) ∧
      strContains (llamaErrMsg st body p) (completionUrl p) = true ∧
      strContains (llamaErrMsg st body p) (natToString st) = true ∧
      strContains (llamaErrMsg st body p) body = true) := by
  refine ⟨?_, ?_, ?_, ?_⟩
  · intro c h
    simp [runtime_chat, h]
  · intro h
    cases hsc : srv.completion with
    | err e => simp [runtime_chat, completionFallback, h, hsc]
    | resp st body =>
      by_cases hs : isSuccess st
      · cases hp : parseCompletionResponse body with
        | none => simp [runtime_chat, completionFallback, h, hsc, hs, hp]
        | some c => simp [runtime_chat, completionFallback, h, hsc, hs, hp]
      · simp [runtime_chat, completionFallback, h, hsc, hs]
  · intro e
    exact ⟨rfl, reqFailedMsg_names_endpoint e p⟩
  · intro st body hs
    refine ⟨?_, llamaErrMsg_names_endpoint st body p, llamaErrMsg_names_status st body p,
      llamaErrMsg_names_body st body p⟩
    simp [completionFallback, hs]

/-- Witness for `chat_fallback_chain`: a usable chat-completions response
is returned directly. -/
theorem chat_fallback_chain_witness :
    runtime_chat "s" "u" none (some 8080)
        ⟨.resp 200 "\x7b\"choices\":[\x7b\"message\":\x7b\"content\":\"hi\"\x7d\x7d]\x7d",
         .err "x"⟩
      = (.ok (strTrim "hi"),
         [.chatCompletions (chatEffective none).1 (chatEffective none).2 "s" "u"], some 8080) :=
  (chat_fallback_chain "s" "u" none 8080 _).1 "hi" (by decide)

/-- **C2 (counterexample).** With the chat-completions attempt failing by
transport error and `/completion` answering HTTP 200 with an unparseable
body, both attempts fail yet the returned error is a bare parse error
that names neither the `/completion` endpoint's URL, nor its status, nor
its body — contradicting the claim that a both-attempts-failed error
always names the raw `/completion` endpoint, its status and its body. -/
theorem chat_error_counterexample :
    (runtime_chat "s" "u" none (some 11435)
        ⟨.err "connection refused", .resp 200 "oops"⟩).1
      = .error ("Parse error: " ++ jsonErrDisplay) ∧
    strContains ("Parse error: " ++ jsonErrDisplay) (completionUrl 11435) = false ∧
    strContains ("Parse error: " ++ jsonErrDisplay) "200" = false ∧
    strContains ("Parse error: " ++ jsonErrDisplay) "oops" = false := by
  refine ⟨rfl, by decide, by decide, by decide⟩

/-- **C7.** When no port is recorded, both `runtime_generate` and
`runtime_chat` fail immediately with their "not started" error, issue no
HTTP request, and leave the recorded state unchanged. -/
theorem not_started_rejects (sys usr prompt : String) (copts : Option ChatOptions)
    (gopts : Option GenerateOptions) (stream : Bool) (csrv : ChatServer) (gsrv : Transport) :
    runtime_chat sys usr copts none csrv = (.error notStartedChatMsg, [], none) ∧
    runtime_generate prompt stream gopts none gsrv = (.error notStartedGenMsg, [], none) ∧
    strContains notStartedChatMsg "not started" = true ∧
    strContains notStartedGenMsg "not started" = true := by
  exact ⟨rfl, rfl, by decide, by decide⟩

/-- **C10.** In `runtime_generate`, a temperature of exactly `0.0` is
silently replaced by `0.7` and a top-p of exactly `0.0` by `0.9` before
the request is built, so the effective values are never zero, while every
non-zero value (negative or above 2 included) is forwarded unchanged. -/
theorem generate_zero_defaults (prompt : String) (stream : Bool)
    (opt : GenerateOptions) (p : Nat) (srv : Transport) :
    (runtime_generate prompt stream (some opt) (some p) srv).2.1
      = [Request.completion prompt (generateEffective (some opt)).2.2
          (generateEffective (some opt)).1 (generateEffective (some opt)).2.1 stream] ∧
    (opt.temperature = 0 → (generateEffective (some opt)).1 = 7/10) ∧
    (opt.temperature ≠ 0 → (generateEffective (some opt)).1 = opt.temperature) ∧
    (opt.top_p = 0 → (generateEffective (some opt)).2.1 = 9/10) ∧
    (opt.top_p ≠ 0 → (generateEffective (some opt)).2.1 = opt.top_p) ∧
    (generateEffective (some opt)).1 ≠ 0 ∧
    (generateEffective (some opt)).2.1 ≠ 0 := by
  refine ⟨?_, ?_, ?_, ?_, ?_, ?_, ?_⟩
  · cases srv with
    | err e => simp [runtime_generate]
    | resp st body =>
      by_cases hs : isSuccess st
      · cases hp : parseCompletionResponse body with
        | none => simp [runtime_generate, hs, hp]
        | some c => simp [runtime_generate, hs, hp]
      · simp [runtime_generate, hs]
  · intro h; simp [generateEffective, h]
  · intro h; simp [generateEffective, h]
  · intro h; simp [generateEffective, h]
  · intro h; simp [generateEffective, h]
  · by_cases h : opt.temperature = 0
    · simp [generateEffective, h]
    · simp [generateEffective, h]
  · by_cases h : opt.top_p = 0
    · simp [generateEffective, h]
    · simp [generateEffective, h]

/-- Witness for `generate_zero_defaults`: zero temperature becomes `0.7`;
a temperature of `3` is forwarded unchanged. -/
theorem generate_zero_defaults_witness :
    (generateEffective (some ⟨0, 0, 0⟩)).1 = 7/10 ∧
    (generateEffective (some ⟨3, 2, 10⟩)).1 = (⟨3, 2, 10⟩ : GenerateOptions).temperature :=
  ⟨(generate_zero_defaults "p" false ⟨0, 0, 0⟩ 1 (.err "e")).2.1 rfl,
   (generate_zero_defaults "p" false ⟨3, 2, 10⟩ 1 (.err "e")).2.2.1 (by norm_num)⟩

/-- **C8 (counterexample).** A generate temperature of `3` — outside the
sane domain `[0,2]` the code itself uses in `runtime_chat` — is not
replaced by a default: it is forwarded unchanged into the `/completion`
request, contradicting the claim that the effective temperature sent to
the server always lies in the sane domain. -/
theorem option_domain_counterexample :
    (generateEffective (some ⟨3, 2, 10⟩)).1 = 3 ∧
    ¬ saneTemperature 3 ∧
    (runtime_generate "p" false (some ⟨3, 2, 10⟩) (some 11435)
        (.resp 200 "\x7b\x7d")).2.1
      = [Request.completion "p" 10 3 2 false] := by
  refine ⟨?_, ?_, ?_⟩
  · norm_num [generateEffective]
  · intro h; have := h.2; norm_num at this
  · rfl

/-- **C8 (amended).** `runtime_chat` clamps: its effective temperature
always lies in the sane domain `[0,2]` (out-of-domain values become
`0.5`) and its effective token limit is positive (non-positive values
become `512`); its top-p is the fixed `0.9`.  `runtime_generate` replaces
only an exactly-zero temperature / top-p (by `0.7` / `0.9`) and a
non-positive token limit (by `2048`); any non-zero temperature or top-p —
even outside the sane domain — is forwarded unchanged.  No option value
is ever rejected: both calls always proceed to issue their request. -/
theorem option_normalization_amended (copt : ChatOptions) (gopt : GenerateOptions)
    (sys usr prompt : String) (stream : Bool) (p : Nat) (csrv : ChatServer)
    (gsrv : Transport) :
    saneTemperature (chatEffective (some copt)).2 ∧
    (¬ saneTemperature copt.temperature → (chatEffective (some copt)).2 = 1/2) ∧
    (chatEffective (some copt)).1 > 0 ∧
    (copt.max_tokens ≤ 0 → (chatEffective (some copt)).1 = 512) ∧
    (gopt.temperature ≠ 0 → (generateEffective (some gopt)).1 = gopt.temperature) ∧
    (gopt.temperature = 0 → (generateEffective (some gopt)).1 = 7/10) ∧
    (gopt.top_p ≠ 0 → (generateEffective (some gopt)).2.1 = gopt.top_p) ∧
    (gopt.top_p = 0 → (generateEffective (some gopt)).2.1 = 9/10) ∧
    (generateEffective (some gopt)).2.2 > 0 ∧
    (gopt.max_tokens ≤ 0 → (generateEffective (some gopt)).2.2 = 2048) ∧
    (runtime_chat sys usr (some copt) (some p) csrv).2.1 ≠ [] ∧
    (runtime_generate prompt stream (some gopt) (some p) gsrv).2.1 ≠ [] ∧
    (∀ pr n t tp strm,
      Request.completion pr n t tp strm
          ∈ (runtime_chat sys usr (some copt) (some p) csrv).2.1 →
      tp = 9/10) := by
  refine ⟨?_, ?_, ?_, ?_, ?_, ?_, ?_, ?_, ?_, ?_, ?_, ?_, ?_⟩
  · show 0 ≤ (chatEffective (some copt)).2 ∧ (chatEffective (some copt)).2 ≤ 2
    have hrfl : (chatEffective (some copt)).2
        = if 0 ≤ copt.temperature ∧ copt.temperature ≤ 2 then copt.temperature
          else (1/2 : ℚ) := rfl
    rw [hrfl]
    split
    · next h => exact h
    · constructor <;> norm_num
  · intro h
    have h' : ¬ (0 ≤ copt.temperature ∧ copt.temperature ≤ 2) := h
    simp [chatEffective, h']
  · by_cases h : copt.max_tokens > 0
    · simp [chatEffective, h]
    · simp [chatEffective, h]
  · intro h
    have h' : ¬ copt.max_tokens > 0 := by omega
    simp [chatEffective, h']
  · intro h; simp [generateEffective, h]
  · intro h; simp [generateEffective, h]
  · intro h; simp [generateEffective, h]
  · intro h; simp [generateEffective, h]
  · by_cases h : gopt.max_tokens > 0
    · simp [generateEffective, h]
    · simp [generateEffective, h]
  · intro h
    have h' : ¬ gopt.max_tokens > 0 := by omega
    simp [generateEffective, h']
  · cases hc : chatAttemptContent csrv.chatCompletions with
    | some c => simp [runtime_chat, hc]
    | none =>
      cases hcc : csrv.completion with
      | err e => simp [runtime_chat, hc, hcc]
      | resp st body =>
        by_cases hs : isSuccess st
        · cases hp : parseCompletionResponse body with
          | none => simp [runtime_chat, hc, hcc, hs, hp]
          | some c => simp [runtime_chat, hc, hcc, hs, hp]
        · simp [runtime_chat, hc, hcc, hs]
  · cases gsrv with
    | err e => simp [runtime_generate]
    | resp st body =>
      by_cases hs : isSuccess st
      · cases hp : parseCompletionResponse body with
        | none => simp [runtime_generate, hs, hp]
        | some c => simp [runtime_generate, hs, hp]
      · simp [runtime_generate, hs]
  · intro pr n t tp strm hmem
    cases hc : chatAttemptContent csrv.chatCompletions with
    | some c => simp [runtime_chat, hc] at hmem
    | none =>
      cases hcc : csrv.completion with
      | err e =>
        simp [runtime_chat, hc, hcc] at hmem
        rcases hmem with ⟨h1, h2, h3, h910, h5⟩
        exact h910
      | resp st body =>
        by_cases hs : isSuccess st
        · cases hp : parseCompletionResponse body with
          | none =>
            simp [runtime_chat, hc, hcc, hs, hp] at hmem
            rcases hmem with ⟨h1, h2, h3, h910, h5⟩
            exact h910
          | some c =>
            simp [runtime_chat, hc, hcc, hs, hp] at hmem
            rcases hmem with ⟨h1, h2, h3, h910, h5⟩
            exact h910
        · simp [runtime_chat, hc, hcc, hs] at hmem
          rcases hmem with ⟨h1, h2, h3, h910, h5⟩
          exact h910

/-- Witness for `option_normalization_amended`: an out-of-domain chat
temperature is clamped to `0.5`, and zero generate max-tokens becomes
`2048`. -/
theorem option_normalization_amended_witness :
    (chatEffective (some ⟨0, 5⟩)).2 = 1/2 ∧
    (generateEffective (some ⟨0, 0, 0⟩)).2.2 = 2048 := by
  have h := option_normalization_amended ⟨0, 5⟩ ⟨0, 0, 0⟩ "s" "u" "p" false 1
    ⟨.err "a", .err "b"⟩ (.err "c")
  exact ⟨h.2.1 (by intro hs; have := hs.2; norm_num at this), h.2.2.2.2.2.2.2.2.2.1 (by norm_num)⟩

/-- **C9.** The port allocator returns `some p` only when `p` is the
preferred default `11435` or lies in the scan range `11436..=11550` and
the bind probe on `p` succeeded at selection time; it returns `none` only
when the preferred port and every port of the scan range failed the bind
probe. -/
theorem find_preferred_port_sound (canBind : Nat → Bool) :
    (∀ p, find_preferred_port canBind = some p →
      (p = 11435 ∨ (11436 ≤ p ∧ p ≤ 11550)) ∧ canBind p = true) ∧
    (find_preferred_port canBind = none →
      ∀ p, (p = 11435 ∨ (11436 ≤ p ∧ p ≤ 11550)) → canBind p = false) := by
  by_cases h : canBind DEFAULT_PORT = true
  · constructor
    · intro p hp
      rw [find_preferred_port, if_pos h] at hp
      cases hp
      exact ⟨Or.inl rfl, h⟩
    · intro hn
      rw [find_preferred_port, if_pos h] at hn
      cases hn
  · constructor
    · intro p hp
      rw [find_preferred_port, if_neg h] at hp
      have hc := List.find?_some hp
      have hm := List.mem_of_find?_eq_some hp
      rw [List.mem_range'_1] at hm
      unfold DEFAULT_PORT at hm
      exact ⟨Or.inr ⟨by omega, by omega⟩, hc⟩
    · intro hn p hdom
      rw [find_preferred_port, if_neg h] at hn
      rw [List.find?_eq_none] at hn
      rcases hdom with rfl | ⟨h1, h2⟩
      · exact Bool.eq_false_iff.mpr h
      · have hmem : p ∈ List.range' (DEFAULT_PORT + 1) 115 := by
          rw [List.mem_range'_1]
          unfold DEFAULT_PORT
          omega
        exact Bool.eq_false_iff.mpr (hn p hmem)

/-- Witness for `find_preferred_port_sound`: with only port 11500
bindable, the allocator scans up to it and returns it. -/
theorem find_preferred_port_sound_witness :
    (11500 = 11435 ∨ (11436 ≤ 11500 ∧ 11500 ≤ 11550)) ∧
      (fun q => q == 11500) 11500 = true :=
  (find_preferred_port_sound (fun q => q == 11500)).1 11500 (by decide)

/-! ## Process supervisor state machine
(`runtime_start` lines 144-265, `runtime_status` lines 267-298,
`runtime_stop` lines 300-311 of src/app runtime.rs)

`RuntimeState` is `{ port: Option<u16>, child: Option<Child> }`.  The
embedding adds a ghost field `attached` that records whether the current
`Some` port was claimed by an attach (a healthy, already-running server
found without spawning); it tracks history only and mirrors no stored
Rust data.  Environment-dependent outcomes (filesystem checks, port
scans, health probes, `try_wait`, `spawn`) are oracle fields consumed at
the program point where the code consults them. -/

structure SupState where
  port : Option Nat
  child : Option Nat
  attached : Bool
deriving DecidableEq

/-- `RuntimeState::default()`: empty. -/
def supInit : SupState := ⟨none, none, false⟩

/-- Oracle for one `runtime_start` call. -/
structure StartOracle where
  validationOk : Bool
  portOverride : Option Nat
  alreadyRunning : Option Nat
  preferredPort : Option Nat
  targetHealthy : Bool
  oldChildAlive : Bool
  logOpenOk : Bool
  spawnOk : Bool
  newChild : Nat
  becameReady : Bool

/-- The fixed readiness-timeout error of the src/app variant (line 264). -/
def startTimeoutMsg : String :=
  "Model still loading; try smaller model or increase timeout."

/-- The spawn-and-poll phase of `runtime_start` (lines 220-264), entered
with the possibly-cleared state `s1`.  Returns the new state, the pids
killed during the call, and the command result. -/
def startSpawnPhase (o : StartOracle) (s1 : SupState) (p : Nat) :
    SupState × List Nat × Except String Nat :=
  if ¬ o.logOpenOk then (s1, [], .error "Failed to open log file: os error")
  else if ¬ o.spawnOk then (s1, [], .error "Failed to start llama-server: os error")
  else if o.becameReady then
    ({ port := some p, child := some o.newChild, attached := false }, s1.child.toList, .ok p)
  else
    ({ port := none, child := none, attached := false }, s1.child.toList ++ [o.newChild],
     .error startTimeoutMsg)

/-- `runtime_start` after the target port is determined (lines 184-264):
attach without spawning when the port is already healthy; return
immediately when this state already owns a live child on that port; clear
a stale claim of the same port; then spawn and poll. -/
def runtime_start_afterPort (o : StartOracle) (s : SupState) (p : Nat) :
    SupState × List Nat × Except String Nat :=
  if o.targetHealthy then
    ({ port := some p, child := none, attached := true }, [], .ok p)
  else if s.port = some p ∧ s.child.isSome ∧ o.oldChildAlive then (s, [], .ok p)
  else
    startSpawnPhase o
      (if s.port = some p then { s with child := none, port := none, attached := false } else s) p

/-- Embeds `runtime_start`: validation, port determination (override /
already-running attach / preferred scan), then `runtime_start_afterPort`. -/
def runtime_start (o : StartOracle) (s : SupState) :
    SupState × List Nat × Except String Nat :=
  if ¬ o.validationOk then (s, [], .error "Model file not found")
  else
    match o.portOverride with
    | some p => runtime_start_afterPort o s p
    | none =>
      match o.alreadyRunning with
      | some p => ({ port := some p, child := none, attached := true }, [], .ok p)
      | none =>
        match o.preferredPort with
        | some p => runtime_start_afterPort o s p
        | none => (s, [], .error "No free port in 11435..11550.")

/-- Outcome of `child.try_wait()` in `runtime_status`. -/
inductive TryWaitOutcome where
  | exited : TryWaitOutcome
  | alive : TryWaitOutcome
  | errored : TryWaitOutcome
deriving DecidableEq

/-- Oracle for one `runtime_status` call. -/
structure StatusOracle where
  tryWait : TryWaitOutcome
  portHealthy : Bool

/-- The probe tail of `runtime_status` (lines 289-297): probe the
recorded port when the child is absent or unresponsive; clear a stale
port claim when the probe fails. -/
def statusProbe (o : StatusOracle) (s : SupState) : SupState × Bool × Option Nat :=
  match s.port with
  | some p =>
    if o.portHealthy then (s, true, some p)
    else ({ s with port := none, attached := false }, false, none)
  | none => (s, false, none)

/-- Embeds `runtime_status`: reap an exited child (clearing both fields),
report a live child as running, otherwise reconcile with a health probe
of the recorded port. -/
def runtime_status (o : StatusOracle) (s : SupState) : SupState × Bool × Option Nat :=
  match s.child with
  | some _ =>
    match o.tryWait with
    | .exited => ({ port := none, child := none, attached := false }, false, none)
    | .alive => (s, true, s.port)
    | .errored => statusProbe o s
  | none => statusProbe o s

/-- Embeds `runtime_stop`: kill and wait on the owned child if present,
clear port and child unconditionally. -/
def runtime_stop (s : SupState) : SupState × List Nat :=
  (⟨none, none, false⟩, s.child.toList)

/-- The state invariant of C4: no orphaned port claim without a backing
child, except an attach; and an attach always has a claimed port. -/
def supInv (s : SupState) : Prop :=
  (s.child = none → s.port = none ∨ s.attached = true) ∧
  (s.attached = true → s.port ≠ none)

theorem supInv_init : supInv supInit := by
  constructor
  · intro _; exact Or.inl rfl
  · intro h; cases h

theorem supInv_spawnPhase (o : StartOracle) (s1 : SupState) (p : Nat)
    (h : supInv s1) : supInv (startSpawnPhase o s1 p).1 := by
  unfold startSpawnPhase
  split_ifs <;> simp_all [supInv]

theorem supInv_afterPort (o : StartOracle) (s : SupState) (p : Nat)
    (h : supInv s) : supInv (runtime_start_afterPort o s p).1 := by
  unfold runtime_start_afterPort
  by_cases h1 : o.targetHealthy = true
  · simp [h1, supInv]
  · rw [if_neg h1]
    by_cases h2 : s.port = some p ∧ s.child.isSome = true ∧ o.oldChildAlive = true
    · rw [if_pos h2]; exact h
    · rw [if_neg h2]
      apply supInv_spawnPhase
      by_cases hp : s.port = some p
      · rw [if_pos hp]
        exact ⟨fun _ => Or.inl rfl, fun hc => by simp at hc⟩
      · rw [if_neg hp]
        exact h

theorem supInv_start (o : StartOracle) (s : SupState) (h : supInv s) :
    supInv (runtime_start o s).1 := by
  unfold runtime_start
  by_cases hv : ¬ o.validationOk = true
  · rw [if_pos hv]; exact h
  · rw [if_neg hv]
    cases hov : o.portOverride with
    | some p => exact supInv_afterPort o s p h
    | none =>
      cases har : o.alreadyRunning with
      | some p => simp [supInv]
      | none =>
        cases hpf : o.preferredPort with
        | some p => exact supInv_afterPort o s p h
        | none => exact h

theorem supInv_statusProbe (o : StatusOracle) (s : SupState) (h : supInv s) :
    supInv (statusProbe o s).1 := by
  unfold statusProbe
  cases hp : s.port with
  | some p =>
    split_ifs
    · exact h
    · exact ⟨fun _ => Or.inl rfl, fun hc => by simp at hc⟩
  | none => exact h

theorem supInv_status (o : StatusOracle) (s : SupState) (h : supInv s) :
    supInv (runtime_status o s).1 := by
  unfold runtime_status
  cases s.child with
  | some c =>
    cases o.tryWait with
    | exited => exact ⟨fun _ => Or.inl rfl, fun hc => by simp at hc⟩
    | alive => exact h
    | errored => exact supInv_statusProbe o s h
  | none => exact supInv_statusProbe o s h

theorem supInv_stop (s : SupState) : supInv (runtime_stop s).1 := by
  exact ⟨fun _ => Or.inl rfl, fun hc => by simp [runtime_stop] at hc⟩

/-- One operation of the supervisor, with an arbitrary environment. -/
inductive SupStep : SupState → SupState → Prop where
  | start (o : StartOracle) (s : SupState) : SupStep s (runtime_start o s).1
  | status (o : StatusOracle) (s : SupState) : SupStep s (runtime_status o s).1
  | stop (s : SupState) : SupStep s (runtime_stop s).1

/-- States reachable from the empty initial state by any sequence of
start, status and stop operations. -/
inductive SupReachable : SupState → Prop where
  | init : SupReachable supInit
  | step {s s' : SupState} : SupReachable s → SupStep s s' → SupReachable s'

/-- **C4.** In every reachable supervisor state, if the child handle is
`None` then the recorded port is `None` — except in the attach case,
where the port was claimed for an already externally running healthy
server without spawning (`attached`), and there the port is `Some` while
the child stays `None`. -/
theorem orphan_port_invariant (s : SupState) (h : SupReachable s) :
    (s.child = none → s.port = none ∨ s.attached = true) ∧
    (s.attached = true → s.port ≠ none) := by
  have hinv : supInv s := by
    induction h with
    | init => exact supInv_init
    | step hr hstep ih =>
      cases hstep with
      | start o => exact supInv_start o _ ih
      | status o => exact supInv_status o _ ih
      | stop => exact supInv_stop _
  exact hinv

/-- Witness for `orphan_port_invariant`: an attach step from the initial
state reaches a state with a claimed port, no child, and the attach mark. -/
theorem orphan_port_invariant_witness :
    ((runtime_start ⟨true, none, some 11435, none, false, false, true, true, 7, false⟩
        supInit).1.child = none →
      (runtime_start ⟨true, none, some 11435, none, false, false, true, true, 7, false⟩
          supInit).1.port = none ∨
      (runtime_start ⟨true, none, some 11435, none, false, false, true, true, 7, false⟩
          supInit).1.attached = true) ∧
    ((runtime_start ⟨true, none, some 11435, none, false, false, true, true, 7, false⟩
        supInit).1.attached = true →
      (runtime_start ⟨true, none, some 11435, none, false, false, true, true, 7, false⟩
          supInit).1.port ≠ none) :=
  orphan_port_invariant _
    (SupReachable.step SupReachable.init (SupStep.start _ supInit))

/-! ## Readiness-timeout failure of the archive variant
(`runtime_start`, archive runtime.rs lines 386-411) -/

/-- `Vec::join(sep)`. -/
def joinWith (sep : String) : List String → String
  | [] => ""
  | [x] => x
  | x :: y :: rest => x ++ sep ++ joinWith sep (y :: rest)

/-- The captured log joined by newlines (`log_state.lines().join("\n")`). -/
def archiveLastOutput (logLines : List String) : String := joinWith "\n" logLines

/-- The trailing excerpt: at most the last 2000 characters, prefixed by
`"..."` when truncated (the Rust code slices the last 2000 bytes; the
streams considered are ASCII, where bytes and characters coincide). -/
def archiveLastOutputTrim (logLines : List String) : String :=
  let lastOutput := archiveLastOutput logLines
  if lastOutput.length > 2000 then
    "..." ++ String.mk (lastOutput.data.drop (lastOutput.length - 2000))
  else lastOutput

/-- The `last_output_suffix` of the timeout error (archive lines 398-402). -/
def archiveTimeoutSuffix (logLines : List String) : String :=
  if archiveLastOutputTrim logLines = "" then ""
  else "\n\nLast llama-server output:\n" ++ archiveLastOutputTrim logLines

/-- The timeout error message of the archive variant (lines 403-410). -/
def archiveTimeoutMsg (timeoutSecs port : Nat) (ggufPath argsDebug suffix : String) :
    String :=
  "llama-server did not become ready within " ++ natToString timeoutSecs
    ++ " seconds. port=" ++ natToString port ++ " model_path=" ++ ggufPath
    ++ " launch_args=[" ++ argsDebug ++ "]" ++ suffix

/-- Embeds the readiness-timeout tail of the archive `runtime_start`
(lines 386-411): build the log excerpt, kill and take the child, clear
the port, and return the diagnostic error. -/
def runtime_start_timeout_archive (s : SupState) (timeoutSecs port : Nat)
    (ggufPath : String) (args : List String) (logLines : List String) :
    SupState × List Nat × String :=
  (⟨none, none, false⟩, s.child.toList,
   archiveTimeoutMsg timeoutSecs port ggufPath (joinWith " " args)
     (archiveTimeoutSuffix logLines))

/-- **C3 (counterexample, src/app variant).** A start call that spawns
(port override 11435) and exhausts the readiness budget does roll back —
child killed, port and child cleared — but returns the fixed message
"Model still loading; try smaller model or increase timeout.", which
contains neither the chosen port, nor the model path, nor the launch
arguments, nor any log excerpt. -/
theorem start_timeout_message_counterexample :
    runtime_start ⟨true, some 11435, none, none, false, false, true, true, 7, false⟩
        ⟨none, none, false⟩
      = (⟨none, none, false⟩, [7], .error startTimeoutMsg) ∧
    strContains startTimeoutMsg "11435" = false ∧
    strContains startTimeoutMsg "m.gguf" = false ∧
    strContains startTimeoutMsg "--model" = false := by
  refine ⟨rfl, by decide, by decide, by decide⟩

/-- **C3 (amended).** On readiness-timeout both variants kill the spawned
child and clear the recorded port and child handle (rollback to idle).
The archive variant's error additionally includes the budget in seconds,
the chosen port, the model path, the launch-argument vector, and the
trailing log excerpt; the src/app variant returns a fixed message with
none of those details. -/
theorem start_timeout_rollback (s : SupState) (timeoutSecs port : Nat)
    (ggufPath : String) (args : List String) (logLines : List String)
    (o : StartOracle) (s' : SupState) (p : Nat)
    (hv : o.validationOk = true) (hov : o.portOverride = some p)
    (hh : o.targetHealthy = false)
    (hid : ¬(s'.port = some p ∧ s'.child.isSome = true ∧ o.oldChildAlive = true))
    (hl : o.logOpenOk = true) (hsp : o.spawnOk = true) (hr : o.becameReady = false) :
    (runtime_start_timeout_archive s timeoutSecs port ggufPath args logLines).1
      = ⟨none, none, false⟩ ∧
    (∀ c, s.child = some c →
      c ∈ (runtime_start_timeout_archive s timeoutSecs port ggufPath args logLines).2.1) ∧
    (let msg := (runtime_start_timeout_archive s timeoutSecs port ggufPath args logLines).2.2
     strContains msg (natToString timeoutSecs) = true ∧
     strContains msg (natToString port) = true ∧
     strContains msg ggufPath = true ∧
     strContains msg (joinWith " " args) = true ∧
     strContains msg (archiveTimeoutSuffix logLines) = true) ∧
    ((runtime_start o s').1 = ⟨none, none, false⟩ ∧
     o.newChild ∈ (runtime_start o s').2.1 ∧
     (runtime_start o s').2.2 = .error startTimeoutMsg) := by
  refine ⟨rfl, ?_, ⟨?_, ?_, ?_, ?_, ?_⟩, ?_⟩
  · intro c hc
    simp [runtime_start_timeout_archive, hc]
  · unfold runtime_start_timeout_archive archiveTimeoutMsg
    simp only
    exact strContains_extend_right _ _ _ (strContains_extend_right _ _ _
      (strContains_extend_right _ _ _ (strContains_extend_right _ _ _
        (strContains_extend_right _ _ _ (strContains_extend_right _ _ _
          (strContains_extend_right _ _ _ (strContains_extend_right _ _ _
            (strContains_append_right _ _ _ (strContains_self _)))))))))
  · unfold runtime_start_timeout_archive archiveTimeoutMsg
    simp only
    exact strContains_extend_right _ _ _ (strContains_extend_right _ _ _
      (strContains_extend_right _ _ _ (strContains_extend_right _ _ _
        (strContains_extend_right _ _ _ (strContains_extend_right _ _ _
          (strContains_append_right _ _ _ (strContains_self _)))))))
  · unfold runtime_start_timeout_archive archiveTimeoutMsg
    simp only
    exact strContains_extend_right _ _ _ (strContains_extend_right _ _ _
      (strContains_extend_right _ _ _ (strContains_extend_right _ _ _
        (strContains_append_right _ _ _ (strContains_self _)))))
  · unfold runtime_start_timeout_archive archiveTimeoutMsg
    simp only
    exact strContains_extend_right _ _ _ (strContains_extend_right _ _ _
      (strContains_append_right _ _ _ (strContains_self _)))
  · unfold runtime_start_timeout_archive archiveTimeoutMsg
    simp only
    exact strContains_append_right _ _ _ (strContains_self _)
  · unfold runtime_start runtime_start_afterPort startSpawnPhase
    simp [hv, hov, hh, hid, hl, hsp, hr]

/-- Witness for `start_timeout_rollback` at concrete inputs. -/
theorem start_timeout_rollback_witness :
    (runtime_start_timeout_archive ⟨some 8080, some 3, false⟩ 180 8080 "m.gguf"
        ["--model", "m.gguf"] ["loading"]).1 = ⟨none, none, false⟩ ∧
    (∀ c, (⟨some 8080, some 3, false⟩ : SupState).child = some c →
      c ∈ (runtime_start_timeout_archive ⟨some 8080, some 3, false⟩ 180 8080 "m.gguf"
        ["--model", "m.gguf"] ["loading"]).2.1) ∧
    (let msg := (runtime_start_timeout_archive ⟨some 8080, some 3, false⟩ 180 8080 "m.gguf"
        ["--model", "m.gguf"] ["loading"]).2.2
     strContains msg (natToString 180) = true ∧
     strContains msg (natToString 8080) = true ∧
     strContains msg "m.gguf" = true ∧
     strContains msg (joinWith " " ["--model", "m.gguf"]) = true ∧
     strContains msg (archiveTimeoutSuffix ["loading"]) = true) ∧
    ((runtime_start ⟨true, some 11435, none, none, false, false, true, true, 7, false⟩
        supInit).1 = ⟨none, none, false⟩ ∧
     (⟨true, some 11435, none, none, false, false, true, true, 7, false⟩ : StartOracle).newChild
       ∈ (runtime_start ⟨true, some 11435, none, none, false, false, true, true, 7, false⟩
           supInit).2.1 ∧
     (runtime_start ⟨true, some 11435, none, none, false, false, true, true, 7, false⟩
        supInit).2.2 = .error startTimeoutMsg) :=
  start_timeout_rollback ⟨some 8080, some 3, false⟩ 180 8080 "m.gguf"
    ["--model", "m.gguf"] ["loading"]
    ⟨true, some 11435, none, none, false, false, true, true, 7, false⟩ supInit 11435
    rfl rfl rfl (by simp [supInit]) rfl rfl rfl

/-! ## Cancellation registry
(`CancelRunState`: `Mutex<HashMap<String, oneshot::Sender<()>>>`, archive
runtime.rs; `runtime_cancel_run` lines 568-573; registration and cleanup
in `runtime_chat` lines 682-722 and `runtime_generate` lines 763-852)

The map from run id to one-shot sender is modelled as a function
`String → Option Nat` (the `Nat` is the identity of the pending sender);
`insert` and `remove` are pointwise updates. -/

/-- `HashMap::insert` (keyed membership; the sender value is replaced). -/
def regInsert (reg : String → Option Nat) (rid : String) (sig : Nat) :
    String → Option Nat :=
  fun x => if x = rid then some sig else reg x

/-- `HashMap::remove`. -/
def regRemove (reg : String → Option Nat) (rid : String) : String → Option Nat :=
  fun x => if x = rid then none else reg x

/-- Embeds `runtime_cancel_run`: remove the entry for `run_id` and fire
its sender when present; otherwise do nothing.  The command is total and
returns no error value; the fired sender (if any) is the second
component. -/
def runtime_cancel_run (runId : String) (reg : String → Option Nat) :
    (String → Option Nat) × Option Nat :=
  match reg runId with
  | some tx => (regRemove reg runId, some tx)
  | none => (reg, none)

/-- How the pending streaming read loop of `runtime_chat` /
`runtime_generate` ends: the byte stream is exhausted, a chunk errors, or
the cancel signal fires first. -/
inductive StreamEnd where
  | ended : StreamEnd
  | chunkErr : StreamEnd
  | cancelled : StreamEnd
deriving DecidableEq

/-- The streaming loop of `runtime_chat` (archive lines 682-722), entered
after the stream POST succeeded: register the run id (if any), process
arriving chunks through `process_sse_buf`, and on every exit — stream
end, chunk error (which falls back to the non-streaming chain, whose
outcome is `fallback`), or cancellation — remove the registry entry
before returning. -/
def chat_stream_run (runId : Option String) (sig : Nat) (reg : String → Option Nat)
    (chunks : List (List Nat)) (term : StreamEnd) (fallback : Except String String) :
    (String → Option Nat) × Except String String :=
  let reg1 := match runId with
    | some rid => regInsert reg rid sig
    | none => reg
  let final := chunks.foldl feedChunk sseInit
  match term with
  | .chunkErr =>
    ((match runId with | some rid => regRemove reg1 rid | none => reg1), fallback)
  | .cancelled =>
    ((match runId with | some rid => regRemove reg1 rid | none => reg1),
     .error "Run cancelled or timed out.")
  | .ended =>
    ((match runId with | some rid => regRemove reg1 rid | none => reg1),
     .ok (String.mk (trimChars final.acc.fullText)))

/-- The streaming loop of `runtime_generate` (archive lines 763-814):
identical registry discipline; a chunk error returns a stream error, and
the accumulated text is returned untrimmed. -/
def generate_stream_run (runId : Option String) (sig : Nat) (reg : String → Option Nat)
    (chunks : List (List Nat)) (term : StreamEnd) (errDisplay : String) :
    (String → Option Nat) × Except String String :=
  let reg1 := match runId with
    | some rid => regInsert reg rid sig
    | none => reg
  let final := chunks.foldl feedChunk sseInit
  match term with
  | .chunkErr =>
    ((match runId with | some rid => regRemove reg1 rid | none => reg1),
     .error ("Stream error: " ++ errDisplay))
  | .cancelled =>
    ((match runId with | some rid => regRemove reg1 rid | none => reg1),
     .error "Run cancelled or timed out.")
  | .ended =>
    ((match runId with | some rid => regRemove reg1 rid | none => reg1),
     .ok (String.mk final.acc.fullText))

/-- The non-streaming select of `runtime_generate` with a run id (archive
lines 835-848): race the request against the cancel signal; either way
the entry is removed before returning.  `raced = some r` is the request
finishing first with result `r`; `raced = none` is the cancel firing
first. -/
def generate_nonstream_run (rid : String) (sig : Nat) (reg : String → Option Nat)
    (raced : Option (Except String String)) :
    (String → Option Nat) × Except String String :=
  let reg1 := regInsert reg rid sig
  match raced with
  | some r => (regRemove reg1 rid, r)
  | none => (regRemove reg1 rid, .error "Run cancelled or timed out.")

/-- **C5.** Every call that registers a run id removes the registry entry
before returning on every exit path — normal completion, stream or
transport error, and cancellation — and when the id was not previously
registered the registry is restored exactly; no entry outlives its call. -/
theorem registry_entry_never_outlives (rid : String) (sig : Nat)
    (reg : String → Option Nat) (chunks : List (List Nat)) (term : StreamEnd)
    (fallback : Except String String) (errDisplay : String)
    (raced : Option (Except String String)) :
    (chat_stream_run (some rid) sig reg chunks term fallback).1 rid = none ∧
    (generate_stream_run (some rid) sig reg chunks term errDisplay).1 rid = none ∧
    (generate_nonstream_run rid sig reg raced).1 rid = none ∧
    (reg rid = none →
      (chat_stream_run (some rid) sig reg chunks term fallback).1 = reg ∧
      (generate_stream_run (some rid) sig reg chunks term errDisplay).1 = reg ∧
      (generate_nonstream_run rid sig reg raced).1 = reg) := by
  refine ⟨?_, ?_, ?_, ?_⟩
  · cases term <;> simp [chat_stream_run, regRemove]
  · cases term <;> simp [generate_stream_run, regRemove]
  · cases raced <;> simp [generate_nonstream_run, regRemove]
  · intro h
    have hfun : regRemove (regInsert reg rid sig) rid = reg := by
      funext x
      by_cases hx : x = rid
      · subst hx; simp [regRemove, h]
      · simp [regRemove, regInsert, hx]
    refine ⟨?_, ?_, ?_⟩
    · cases term <;> simpa [chat_stream_run] using hfun
    · cases term <;> simpa [generate_stream_run] using hfun
    · cases raced <;> simpa [generate_nonstream_run] using hfun

/-- Witness for `registry_entry_never_outlives`: a cancelled run against
the empty registry leaves the registry empty. -/
theorem registry_entry_never_outlives_witness :
    (chat_stream_run (some "r1") 5 (fun _ => none) [] .cancelled (.ok "")).1 "r1" = none ∧
    (chat_stream_run (some "r1") 5 (fun _ => none) [] .cancelled (.ok "")).1
      = (fun _ => none) :=
  ⟨(registry_entry_never_outlives "r1" 5 (fun _ => none) [] .cancelled (.ok "") "" none).1,
   ((registry_entry_never_outlives "r1" 5 (fun _ => none) [] .cancelled (.ok "")
      "" none).2.2.2 rfl).1⟩

/-- **C6.** `cancel(run_id)` removes the entry and fires its one-shot
sender when the entry exists (leaving all other entries untouched); when
no entry exists it is a no-op: the registry is unchanged, nothing fires,
and — the command returning plain unit — no error is produced.  A second
cancel of the same id is therefore also a no-op. -/
theorem cancel_run_semantics (rid : String) (reg : String → Option Nat) :
    (∀ sig, reg rid = some sig →
      (runtime_cancel_run rid reg).1 rid = none ∧
      (runtime_cancel_run rid reg).2 = some sig ∧
      (∀ x, x ≠ rid → (runtime_cancel_run rid reg).1 x = reg x)) ∧
    (reg rid = none → runtime_cancel_run rid reg = (reg, none)) ∧
    (runtime_cancel_run rid (runtime_cancel_run rid reg).1
      = ((runtime_cancel_run rid reg).1, none)) := by
  refine ⟨?_, ?_, ?_⟩
  · intro sig h
    refine ⟨?_, ?_, ?_⟩
    · simp [runtime_cancel_run, h, regRemove]
    · simp [runtime_cancel_run, h]
    · intro x hx
      simp [runtime_cancel_run, h, regRemove, hx]
  · intro h
    simp [runtime_cancel_run, h]
  · cases h : reg rid with
    | none => simp [runtime_cancel_run, h]
    | some sig => simp [runtime_cancel_run, h, regRemove]

/-- Witness for `cancel_run_semantics`: cancelling a registered id fires
its sender; cancelling on the empty registry is a no-op. -/
theorem cancel_run_semantics_witness :
    (runtime_cancel_run "a" (fun x => if x = "a" then some 3 else none)).2 = some 3 ∧
    runtime_cancel_run "a" (fun _ => none) = ((fun _ => none), none) :=
  ⟨((cancel_run_semantics "a" (fun x => if x = "a" then some 3 else none)).1 3
      (by simp)).2.1,
   (cancel_run_semantics "a" (fun _ => none)).2.1 rfl⟩
